import Mathlib

/-!
Verification of the Val-Halla snapshot/diff engine and reconciliation state
machine, shallowly embedded from `src/core/backup_manager.py` and
`src/core/rebuild_manager.py`.  Pure functions of the Python source become
Lean functions; the stateful reconciliation loop becomes explicit state
passing over a `LoopState`, with the external OneBot API modelled as an
oracle (`RunEnv` / `IterEnv`) plus an explicit trace of emitted API calls.
-/

namespace ValHalla

/-! ## Diff engine (`backup_manager.py`) -/

/-- A `BackupMember` row as read back from the store, restricted to the
fields the diff and reconciliation logic consult.  `card` and `title` are
nullable columns, hence `Option String`. -/
structure SnapMember where
  user_id : Int
  nickname : String
  card : Option String
  title : Option String
  role : String
  deriving DecidableEq

/-- Key set of the dict `{m.user_id: m for m in ms}` (Python dict keys:
duplicates collapse). -/
def memberIds (ms : List SnapMember) : Finset Int :=
  (ms.map (fun m => m.user_id)).toFinset

/-- Lookup in the dict built by the comprehension over `ms`: on a duplicated
key the last entry wins, hence the search over the reversed list. -/
def lookupLast (ms : List SnapMember) (uid : Int) : Option SnapMember :=
  ms.reverse.find? (fun m => m.user_id == uid)

/-- Result of `BackupManager.compare_backups` (lines 393-422).  The returned
mapping carries `joined`/`left` itemised over these id sets, the count
`len(remained)` and the `card_changed` entries, which are determined by the
ids collected here. -/
structure CompareResult where
  joined : Finset Int
  left : Finset Int
  remained : Finset Int
  card_changed : Finset Int
  deriving DecidableEq

/-- `BackupManager.compare_backups`: build the two id→member dicts, take the
key sets, compute `joined = ids_2 - ids_1`, `left = ids_1 - ids_2`,
`remained = ids_1 & ids_2`, and for each remained id report it when
`m1.card != m2.card` (raw comparison of the nullable column). -/
def compare_backups (ms1 ms2 : List SnapMember) : CompareResult :=
  let ids1 := memberIds ms1
  let ids2 := memberIds ms2
  { joined := ids2 \ ids1
    left := ids1 \ ids2
    remained := ids1 ∩ ids2
    card_changed :=
      (ids1 ∩ ids2).filter (fun uid =>
        (lookupLast ms1 uid).map (fun m => m.card) ≠
          (lookupLast ms2 uid).map (fun m => m.card)) }

/-- The membership delta computed inside `BackupManager.backup_group`
(lines 144-149): `joined_ids = new_user_ids - old_user_ids`,
`left_ids = old_user_ids - new_user_ids`. -/
def backup_group_delta (old_user_ids new_user_ids : Finset Int) :
    Finset Int × Finset Int :=
  (new_user_ids \ old_user_ids, old_user_ids \ new_user_ids)

/-! ## Reconciliation engine (`rebuild_manager.py`): data model -/

/-- `RebuildStatus` enum. -/
inductive RebuildStatus where
  | pending
  | running
  | paused
  | completed
  | failed
  | cancelled
  deriving DecidableEq

/-- `InviteStatus` enum. -/
inductive InviteStatus where
  | pending
  | success
  | failed
  | skipped
  deriving DecidableEq

/-- `InviteResult` dataclass (the per-member outcome record); the wall-clock
`timestamp` field is not modelled. -/
structure InviteResult where
  user_id : Int
  nickname : String
  status : InviteStatus
  message : String
  deriving DecidableEq

/-- `RebuildProgress` dataclass; the `started_at`/`completed_at` wall-clock
stamps are not modelled. -/
structure RebuildProgress where
  total : Nat := 0
  processed : Nat := 0
  success : Nat := 0
  failed : Nat := 0
  skipped : Nat := 0
  status : RebuildStatus := RebuildStatus.pending
  current_user : Option Int := none
  results : List InviteResult := []
  error_message : String := ""
  deriving DecidableEq

/-- `RebuildProgress.progress_percent`. -/
def RebuildProgress.progress_percent (p : RebuildProgress) : ℚ :=
  if p.total = 0 then 0 else ((p.processed : ℚ) / (p.total : ℚ)) * 100

/-- The `RebuildManager` configuration fields consulted by the loop
(`__init__`); delays and retry knobs that the code never reads are omitted. -/
structure RebuildConfig where
  invites_per_minute : Nat := 10
  restore_admins : Bool := true
  restore_cards : Bool := true
  restore_titles : Bool := false
  send_welcome : Bool := true
  continue_on_error : Bool := true
  deriving DecidableEq

/-- `self.invite_interval = 60.0 / invites_per_minute` computed in
`__init__`. -/
def RebuildConfig.invite_interval (cfg : RebuildConfig) : ℚ :=
  60 / (cfg.invites_per_minute : ℚ)

/-- One remote OneBot API call, as emitted by the engine.  The free-text
payload of `send_group_msg` is irrelevant to every claim and is dropped. -/
inductive ApiCall where
  | get_group_member_list (group_id : Int) (no_cache : Bool)
  | get_login_info
  | get_friend_list
  | set_group_card (group_id : Int) (user_id : Int) (card : String)
  | set_group_special_title (group_id : Int) (user_id : Int) (title : String)
  | set_group_admin (group_id : Int) (user_id : Int) (enable : Bool)
  | send_group_msg (group_id : Int)
  deriving DecidableEq

/-- Whether a call mutates remote state (everything except the three read
operations). -/
def ApiCall.isMutation : ApiCall → Bool
  | ApiCall.get_group_member_list _ _ => false
  | ApiCall.get_login_info => false
  | ApiCall.get_friend_list => false
  | _ => true

/-- A `BackupMember` row as consumed by the rebuild paths (`user_id`,
`nickname`, nullable `card`/`title`, `role`). -/
structure BackupMember where
  user_id : Int
  nickname : String
  card : Option String
  role : String
  title : Option String
  deriving DecidableEq

/-- A live roster entry as returned by `get_group_member_list`: the dry-run
path reads `user_id`, `card`, `title` and `role` via `.get(...)`, each of
which may be absent/null. -/
structure LiveMember where
  user_id : Int
  card : Option String
  title : Option String
  role : Option String
  deriving DecidableEq

/-- `current_map = ... ` dict lookup (last entry wins on duplicated ids). -/
def liveLookup (roster : List LiveMember) (uid : Int) : Option LiveMember :=
  roster.reverse.find? (fun m => m.user_id == uid)

/-- Key set of the live roster dict. -/
def liveIds (roster : List LiveMember) : Finset Int :=
  (roster.map (fun m => m.user_id)).toFinset

/-! ## `_restore_member_info` and `_invite_member` -/

/-- Success/failure oracle for the three independently try/caught restore
sub-calls of one `_restore_member_info` invocation. -/
structure RestoreEnv where
  card_ok : Bool
  title_ok : Bool
  admin_ok : Bool
  deriving DecidableEq

/-- `", ".join(xs)`. -/
def joinComma : List String → String
  | [] => ""
  | [s] => s
  | s :: rest => s ++ ", " ++ joinComma rest

/-- `RebuildManager._restore_member_info` (lines 720-786): for each enabled
attribute the remote call is made unconditionally (the live value is never
consulted); a sub-call that succeeds contributes its label to the returned
`restored` list, a failing one is logged and absorbed.  Returns the
`restored` list together with the emitted calls. -/
def restore_member_info (cfg : RebuildConfig) (group_id : Int)
    (m : BackupMember) (env : RestoreEnv) : List String × List ApiCall :=
  let cardPart : List String × List ApiCall :=
    if cfg.restore_cards then
      let backup_card := m.card.getD ""
      ((if env.card_ok then
          [if backup_card ≠ "" then "名片'" ++ backup_card ++ "'" else "清空名片"]
        else []),
       [ApiCall.set_group_card group_id m.user_id backup_card])
    else ([], [])
  let titlePart : List String × List ApiCall :=
    if cfg.restore_titles then
      let backup_title := m.title.getD ""
      ((if env.title_ok then
          [if backup_title ≠ "" then "头衔'" ++ backup_title ++ "'" else "清空头衔"]
        else []),
       [ApiCall.set_group_special_title group_id m.user_id backup_title])
    else ([], [])
  let adminPart : List String × List ApiCall :=
    if cfg.restore_admins ∧ m.role = "admin" then
      ((if env.admin_ok then ["管理员权限"] else []),
       [ApiCall.set_group_admin group_id m.user_id true])
    else ([], [])
  (cardPart.1 ++ titlePart.1 ++ adminPart.1,
   cardPart.2 ++ titlePart.2 ++ adminPart.2)

/-- `RebuildManager._invite_member` (lines 672-718): fetch the friend list
(a raised exception is caught and yields a `failed` outcome), skip
non-friends, otherwise mark the member `success` as flagged for manual
invite.  Returns the outcome together with the emitted calls. -/
def invite_member (m : BackupMember)
    (friend_fetch : Except String (List Int)) : InviteResult × List ApiCall :=
  match friend_fetch with
  | Except.error e =>
      ({ user_id := m.user_id, nickname := m.nickname,
         status := InviteStatus.failed, message := e },
       [ApiCall.get_friend_list])
  | Except.ok friends =>
      if m.user_id ∈ friends then
        ({ user_id := m.user_id, nickname := m.nickname,
           status := InviteStatus.success, message := "已标记待邀请" },
         [ApiCall.get_friend_list])
      else
        ({ user_id := m.user_id, nickname := m.nickname,
           status := InviteStatus.skipped, message := "非好友,无法邀请" },
         [ApiCall.get_friend_list])

/-! ## `_dry_run_rebuild` -/

/-- One entry of a dry-run change's `details` list: the attribute type and
the current/backup values (the formatted human-readable `action` text is
presentation and not modelled). -/
structure DryDetail where
  dtype : String
  current : String
  backup : String
  deriving DecidableEq

/-- One entry of the dry-run `changes` list. -/
structure DryChange where
  user_id : Int
  nickname : String
  action : String
  reason : String
  details : List DryDetail
  deriving DecidableEq

/-- The `stats` counters accumulated by `_dry_run_rebuild`. -/
structure DryStats where
  total_backup_members : Nat := 0
  current_members : Nat := 0
  will_skip_bot : Nat := 0
  will_skip_already_in : Nat := 0
  will_skip_not_friend : Nat := 0
  will_restore_card : Nat := 0
  will_restore_title : Nat := 0
  will_restore_admin : Nat := 0
  cannot_invite : Nat := 0
  deriving DecidableEq

/-- Classification of one snapshotted member by the `_dry_run_rebuild` loop
body (lines 352-447), in the source's branch order: bot-self, already in the
target group (collecting card/title/admin detail entries per enabled flag,
comparing card and title after `or ""` null-normalisation), not a friend,
friend. -/
def dryClassify (cfg : RebuildConfig) (bot_user_id : Option Int)
    (roster : List LiveMember) (friend_ids : List Int)
    (m : BackupMember) : DryChange :=
  if some m.user_id = bot_user_id then
    { user_id := m.user_id, nickname := m.nickname,
      action := "skip", reason := "Bot自身", details := [] }
  else if m.user_id ∈ liveIds roster then
    let current_member := (liveLookup roster m.user_id).getD
      { user_id := m.user_id, card := none, title := none, role := none }
    let cardChanges : List DryDetail :=
      if cfg.restore_cards then
        let current_card := current_member.card.getD ""
        let backup_card := m.card.getD ""
        if current_card ≠ backup_card then
          [{ dtype := "card", current := current_card, backup := backup_card }]
        else []
      else []
    let titleChanges : List DryDetail :=
      if cfg.restore_titles then
        let current_title := current_member.title.getD ""
        let backup_title := m.title.getD ""
        if current_title ≠ backup_title then
          [{ dtype := "title", current := current_title, backup := backup_title }]
        else []
      else []
    let adminChanges : List DryDetail :=
      if cfg.restore_admins ∧ m.role = "admin" then
        let current_role := current_member.role.getD "member"
        if current_role ≠ "admin" ∧ current_role ≠ "owner" then
          [{ dtype := "admin", current := current_role, backup := "admin" }]
        else []
      else []
    let member_changes := cardChanges ++ titleChanges ++ adminChanges
    if member_changes ≠ [] then
      { user_id := m.user_id, nickname := m.nickname,
        action := "restore", reason := "已在群内，将恢复信息",
        details := member_changes }
    else
      { user_id := m.user_id, nickname := m.nickname,
        action := "skip", reason := "已在群内，无需更改", details := [] }
  else if m.user_id ∉ friend_ids then
    { user_id := m.user_id, nickname := m.nickname,
      action := "cannot_invite", reason := "非好友，无法邀请", details := [] }
  else
    { user_id := m.user_id, nickname := m.nickname,
      action := "need_invite",
      reason := "是好友，但OneBot标准不支持直接邀请入群", details := [] }

/-- The per-branch `stats[...] += 1` increments of the dry-run loop, recast
over the branch's resulting change entry (the counters bumped by a branch
are determined by the entry's action/reason and its detail types). -/
def dryStatsAdd (st : DryStats) (c : DryChange) : DryStats :=
  if c.action = "skip" ∧ c.reason = "Bot自身" then
    { st with will_skip_bot := st.will_skip_bot + 1 }
  else if c.action = "restore" ∨ (c.action = "skip" ∧ c.reason = "已在群内，无需更改") then
    { st with
      will_skip_already_in := st.will_skip_already_in + 1
      will_restore_card := st.will_restore_card +
        (c.details.filter (fun d => d.dtype = "card")).length
      will_restore_title := st.will_restore_title +
        (c.details.filter (fun d => d.dtype = "title")).length
      will_restore_admin := st.will_restore_admin +
        (c.details.filter (fun d => d.dtype = "admin")).length }
  else if c.action = "cannot_invite" then
    { st with will_skip_not_friend := st.will_skip_not_friend + 1
              cannot_invite := st.cannot_invite + 1 }
  else
    { st with cannot_invite := st.cannot_invite + 1 }

/-- The dry-run preview payload (statistics and itemised decisions; the
echoed configuration flags and message strings of the returned mapping are
presentation). -/
structure DryRunResult where
  stats : DryStats
  changes : List DryChange
  total_changes : Nat
  deriving DecidableEq

/-- Oracle for the three reads performed by `_dry_run_rebuild`: the live
roster fetch (`Except.error` = the call raised, which aborts the preview),
the bot identity (`none` = the call raised or the field is missing) and the
friend list (`Except.error` = the call raised, degraded to the empty set). -/
structure DryRunEnv where
  roster : Except String (List LiveMember)
  login : Option Int
  friends : Except String (List Int)

/-- `RebuildManager._dry_run_rebuild` (lines 296-464): fetch the live
roster with `no_cache=True` (a failure raises `ValueError` and aborts),
fetch the bot identity and friend list (failures degrade to unknown/empty),
then classify every snapshotted member.  Returns the preview (or the raised
error) together with the list of emitted API calls. -/
def dry_run_rebuild (cfg : RebuildConfig) (group_id : Int)
    (backup_members : List BackupMember) (env : DryRunEnv) :
    Except String DryRunResult × List ApiCall :=
  match env.roster with
  | Except.error e =>
      (Except.error ("获取群成员失败: " ++ e),
       [ApiCall.get_group_member_list group_id true])
  | Except.ok roster =>
      let friend_ids := match env.friends with
        | Except.ok fs => fs
        | Except.error _ => []
      let changes := backup_members.map
        (dryClassify cfg env.login roster friend_ids)
      let stats := changes.foldl dryStatsAdd
        { total_backup_members := backup_members.length
          current_members := (liveIds roster).card }
      (Except.ok
        { stats := stats
          changes := changes
          total_changes := stats.will_restore_card +
            stats.will_restore_title + stats.will_restore_admin },
       [ApiCall.get_group_member_list group_id true,
        ApiCall.get_login_info, ApiCall.get_friend_list])

/-! ## `_rebuild_group`: the throttled execution loop -/

/-- Trace of externally visible events of a run: emitted API calls, the
number of `progress_callback` invocation points reached (the callback is
invoked there when the caller supplied one), and the rate-limit sleeps
performed, each recorded with its duration in seconds. -/
structure Trace where
  calls : List ApiCall
  callbacks : Nat
  sleeps : List ℚ
  deriving DecidableEq

/-- The empty trace. -/
def Trace.empty : Trace := { calls := [], callbacks := 0, sleeps := [] }

/-- Trace concatenation. -/
def Trace.append (t u : Trace) : Trace :=
  { calls := t.calls ++ u.calls
    callbacks := t.callbacks + u.callbacks
    sleeps := t.sleeps ++ u.sleeps }

/-- Oracle for the external events of one loop iteration: whether `cancel()`
had been called before the iteration's boundary check, whether the iteration
was paused and `cancel()` arrived during the pause-wait (a plain
pause/resume leaves the iteration's net effect unchanged and is subsumed by
neither flag), the restore sub-call outcomes, and the result of the
`get_friend_list` fetch inside `_invite_member`. -/
structure IterEnv where
  cancel_before : Bool
  cancel_during_pause : Bool
  restore_env : RestoreEnv
  friend_fetch : Except String (List Int)

/-- Default oracle: no external control events, every remote call succeeds,
empty friend list. -/
def defaultIterEnv : IterEnv :=
  { cancel_before := false, cancel_during_pause := false,
    restore_env := { card_ok := true, title_ok := true, admin_ok := true },
    friend_fetch := Except.ok [] }

/-- In-memory state threaded through the loop: the progress record, the set
`current_user_ids`, and the `self._cancelled` flag. -/
structure LoopState where
  prog : RebuildProgress
  current_ids : Finset Int
  cancelled : Bool
  deriving DecidableEq

/-- Record one member outcome: `processed += 1`, append the result, and bump
the counter matching the branch that produced the result (`success` for a
`success` outcome, `failed` for a `failed` one, `skipped` otherwise) —
exactly the increments performed next to each `results.append` site of
`_rebuild_group`. -/
def addOutcome (p : RebuildProgress) (r : InviteResult) : RebuildProgress :=
  { p with
    processed := p.processed + 1
    results := p.results ++ [r]
    success := if r.status = InviteStatus.success then p.success + 1 else p.success
    failed := if r.status = InviteStatus.failed then p.failed + 1 else p.failed
    skipped := if r.status = InviteStatus.success ∨ r.status = InviteStatus.failed
               then p.skipped else p.skipped + 1 }

/-- The body of one `_rebuild_group` iteration after the boundary
cancel/pause checks (lines 573-642): set `current_user`; skip bot-self
(`continue`, so no callback and no sleep); for an already-present member run
the metadata restore and record `success`/`skipped` (`continue`, again no
callback and no sleep); otherwise run `_invite_member`, record its outcome,
on success add the member to the roster set and run the metadata restore,
on failure with `continue_on_error=False` mark the job `failed` and break —
only iterations reaching the bottom of the loop body invoke the progress
callback and sleep `invite_interval` seconds.  Returns the new state, the
iteration's trace, and `false` when the loop `break`s. -/
def process_member (cfg : RebuildConfig) (group_id : Int)
    (bot_user_id : Option Int) (e : IterEnv) (s : LoopState)
    (m : BackupMember) : LoopState × Trace × Bool :=
  let s := { s with prog := { s.prog with current_user := some m.user_id } }
  if some m.user_id = bot_user_id then
    let r : InviteResult :=
      { user_id := m.user_id, nickname := m.nickname,
        status := InviteStatus.skipped, message := "Bot 自身" }
    ({ s with prog := addOutcome s.prog r }, Trace.empty, true)
  else if m.user_id ∈ s.current_ids then
    let rc := restore_member_info cfg group_id m e.restore_env
    let r : InviteResult :=
      if rc.1 ≠ [] then
        { user_id := m.user_id, nickname := m.nickname,
          status := InviteStatus.success,
          message := "已在群内，恢复了: " ++ joinComma rc.1 }
      else
        { user_id := m.user_id, nickname := m.nickname,
          status := InviteStatus.skipped, message := "已在群内，无需更改" }
    ({ s with prog := addOutcome s.prog r },
     { calls := rc.2, callbacks := 0, sleeps := [] }, true)
  else
    let ic := invite_member m e.friend_fetch
    if ic.1.status = InviteStatus.success then
      let rc := restore_member_info cfg group_id m e.restore_env
      ({ s with prog := addOutcome s.prog ic.1
                current_ids := insert m.user_id s.current_ids },
       { calls := ic.2 ++ rc.2, callbacks := 1,
         sleeps := [cfg.invite_interval] }, true)
    else if ic.1.status = InviteStatus.failed then
      if cfg.continue_on_error then
        ({ s with prog := addOutcome s.prog ic.1 },
         { calls := ic.2, callbacks := 1,
           sleeps := [cfg.invite_interval] }, true)
      else
        ({ s with prog :=
            { addOutcome s.prog ic.1 with
              status := RebuildStatus.failed
              error_message := ic.1.message } },
         { calls := ic.2, callbacks := 0, sleeps := [] }, false)
    else
      ({ s with prog := addOutcome s.prog ic.1 },
       { calls := ic.2, callbacks := 1,
         sleeps := [cfg.invite_interval] }, true)

/-- Effect of the pause-wait of one iteration (lines 568-571): a `cancel()`
arriving during the wait sets the job status to `cancelled` and
`self._cancelled = True`, but only breaks the inner pause loop — control
then falls through to the member's processing. -/
def pauseMark (e : IterEnv) (s : LoopState) : LoopState :=
  if e.cancel_during_pause then
    { s with cancelled := true
             prog := { s.prog with status := RebuildStatus.cancelled } }
  else s

/-- The `for member in all_members` loop of `_rebuild_group` (lines
562-642).  Iteration boundary: if `self._cancelled` (or `cancel()` arrived
since the previous iteration) the status is set to `cancelled` and the loop
breaks before touching the member; otherwise the pause-wait runs
(`pauseMark`) and the member is processed.  Returns the final state, the
accumulated trace, and the list of observable progress values after each
processed member. -/
def run_loop (cfg : RebuildConfig) (group_id : Int)
    (bot_user_id : Option Int) :
    List BackupMember → List IterEnv → LoopState →
    LoopState × Trace × List RebuildProgress
  | [], _, s => (s, Trace.empty, [])
  | m :: rest, es, s =>
      let e := es.headD defaultIterEnv
      if s.cancelled ∨ e.cancel_before then
        ({ s with prog := { s.prog with status := RebuildStatus.cancelled } },
         Trace.empty, [])
      else
        let step := process_member cfg group_id bot_user_id e (pauseMark e s) m
        if step.2.2 then
          let tail := run_loop cfg group_id bot_user_id rest es.tail step.1
          (tail.1, step.2.1.append tail.2.1, step.1.prog :: tail.2.2)
        else
          (step.1, step.2.1, [step.1.prog])

/-- Finalisation of `_rebuild_group` (lines 644-649): promote a still
`running` status to `completed`, clear `current_user` (the `completed_at`
stamp is not modelled). -/
def finalizeProgress (p : RebuildProgress) : RebuildProgress :=
  let p := if p.status = RebuildStatus.running
    then { p with status := RebuildStatus.completed } else p
  { p with current_user := none }

/-- Oracle for one `_rebuild_group` run: the up-front roster fetch (the code
only keeps the id set; `Except.error` = the call raised, which is caught and
degraded to the empty set), the bot identity, and the per-iteration
oracles. -/
structure RunEnv where
  roster : Except String (List Int)
  login : Option Int
  iters : List IterEnv

/-- `RebuildManager._rebuild_group` (lines 503-670): initialise the progress
record with `total = len(members)` and status `running`, fetch the live
roster and bot identity once up front, optionally announce the start, order
the members as regular members then admins (owners are dropped), run the
loop, then finalise and optionally announce completion.  Returns the final
progress, the trace, and the per-member observation points. -/
def rebuild_group (cfg : RebuildConfig) (target_group_id : Int)
    (members : List BackupMember) (env : RunEnv) :
    RebuildProgress × Trace × List RebuildProgress :=
  let prog0 : RebuildProgress :=
    { total := members.length, status := RebuildStatus.running }
  let current_ids : Finset Int := (env.roster.toOption.getD []).toFinset
  let startCalls :=
    [ApiCall.get_group_member_list target_group_id true,
     ApiCall.get_login_info] ++
    (if cfg.send_welcome then [ApiCall.send_group_msg target_group_id] else [])
  let admins := members.filter (fun m => m.role = "admin")
  let regular_members := members.filter (fun m => m.role = "member")
  let all_members := regular_members ++ admins
  let s0 : LoopState := { prog := prog0, current_ids := current_ids,
                          cancelled := false }
  let result := run_loop cfg target_group_id env.login all_members env.iters s0
  let endCalls :=
    if cfg.send_welcome then [ApiCall.send_group_msg target_group_id] else []
  (finalizeProgress result.1.prog,
   { calls := startCalls ++ result.2.1.calls ++ endCalls
     callbacks := result.2.1.callbacks
     sleeps := result.2.1.sleeps },
   result.2.2)

/-! ## Engine-level controls (`cancel` / `pause` / `resume`) -/

/-- Engine-level mutable state: the optional current progress record and the
`_cancelled`/`_paused` flags. -/
structure EngineState where
  progress : Option RebuildProgress
  cancelled : Bool
  paused : Bool
  deriving DecidableEq

namespace RebuildManager

/-- `RebuildManager.cancel` (lines 145-150): set `_cancelled` and, whenever a
progress record exists, overwrite its status with `cancelled`. -/
def cancel (e : EngineState) : EngineState :=
  { e with cancelled := true
           progress := e.progress.map
             (fun p => { p with status := RebuildStatus.cancelled }) }

/-- `RebuildManager.pause` (lines 152-157). -/
def pause (e : EngineState) : EngineState :=
  { e with paused := true
           progress := e.progress.map
             (fun p => { p with status := RebuildStatus.paused }) }

/-- `RebuildManager.resume` (lines 159-164). -/
def resume (e : EngineState) : EngineState :=
  { e with paused := false
           progress := e.progress.map
             (fun p => { p with status := RebuildStatus.running }) }

end RebuildManager

/-! ## Concrete instances used by the individual claims -/

/-- Configuration of the C3 scenario: `restoreCards=true`, other restore
flags off. -/
def c3_cfg : RebuildConfig :=
  { invites_per_minute := 10, restore_admins := false, restore_cards := true,
    restore_titles := false, send_welcome := false, continue_on_error := true }

/-- Snapshot members of the C3 scenario. -/
def c3_members : List BackupMember :=
  [{ user_id := 1, nickname := "u1", card := some "A", role := "member", title := none },
   { user_id := 2, nickname := "u2", card := some "B", role := "member", title := none },
   { user_id := 3, nickname := "u3", card := some "C", role := "member", title := none }]

/-- Live state of the C3 scenario: ids 1 (card A') and 2 (card B) are in the
target group, the friend list is exactly id 3, the bot is id 999. -/
def c3_env : DryRunEnv :=
  { roster := Except.ok
      [{ user_id := 1, card := some "A'", title := none, role := some "member" },
       { user_id := 2, card := some "B", title := none, role := some "member" }]
    login := some 999
    friends := Except.ok [3] }

/-- C5 counterexample configuration: all restore flags off. -/
def c5_cfg : RebuildConfig :=
  { invites_per_minute := 10, restore_admins := false, restore_cards := false,
    restore_titles := false, send_welcome := false, continue_on_error := true }

/-- C5 counterexample member: id 5, already in the target group. -/
def c5_members : List BackupMember :=
  [{ user_id := 5, nickname := "n", card := some "X", role := "member", title := none }]

/-- C5 counterexample run environment: id 5 is on the live roster. -/
def c5_env : RunEnv :=
  { roster := Except.ok [5], login := none, iters := [defaultIterEnv] }

/-- C6 counterexample configuration: all restore flags off. -/
def c6_cfg : RebuildConfig :=
  { invites_per_minute := 10, restore_admins := false, restore_cards := false,
    restore_titles := false, send_welcome := false, continue_on_error := true }

/-- C6 counterexample member: id 5, already in the target group. -/
def c6_member0 : BackupMember :=
  { user_id := 5, nickname := "n", card := some "X", role := "member", title := none }

/-- C6 counterexample member list. -/
def c6_members : List BackupMember := [c6_member0]

/-- C6 witness loop state: a running one-member job, not cancelled. -/
def c6_state : LoopState :=
  { prog := { total := 1, status := RebuildStatus.running },
    current_ids := {5}, cancelled := false }

/-- C6 witness iteration oracle: cancellation arrives during the pause. -/
def c6_iter : IterEnv := { defaultIterEnv with cancel_during_pause := true }

/-- C6 counterexample environment: `cancel()` arrives while the job is
paused at the boundary before the only member. -/
def c6_env : RunEnv :=
  { roster := Except.ok [5], login := none,
    iters := [{ defaultIterEnv with cancel_during_pause := true }] }

/-- C7 counterexample: a progress record of a job that has completed. -/
def c7_prog : RebuildProgress :=
  { total := 1, processed := 1, success := 1,
    status := RebuildStatus.completed }

/-- C8 counterexample old snapshot: id 1 with a null card. -/
def c8_old : List SnapMember :=
  [{ user_id := 1, nickname := "n", card := none, title := none, role := "member" }]

/-- C8 counterexample new snapshot: id 1 with an empty-string card. -/
def c8_new : List SnapMember :=
  [{ user_id := 1, nickname := "n", card := some "", title := none, role := "member" }]

/-- C9 counterexample configuration: `restore_cards` enabled. -/
def c9_cfg : RebuildConfig :=
  { invites_per_minute := 10, restore_admins := false, restore_cards := true,
    restore_titles := false, send_welcome := false, continue_on_error := true }

/-- C9 counterexample member: id 7 whose snapshot card X equals the live
card X of the target group. -/
def c9_members : List BackupMember :=
  [{ user_id := 7, nickname := "x", card := some "X", role := "member", title := none }]

/-- C9 counterexample run environment: id 7 is on the live roster (its live
card, not consulted by the execution path, is X). -/
def c9_env : RunEnv :=
  { roster := Except.ok [7], login := none, iters := [defaultIterEnv] }

/-- C10 counterexample configuration: `restore_cards` enabled. -/
def c10_cfg : RebuildConfig :=
  { invites_per_minute := 10, restore_admins := false, restore_cards := true,
    restore_titles := false, send_welcome := false, continue_on_error := true }

/-- C10 counterexample member: id 9, a friend of the bot, actually present
in the target group (the failed roster fetch hides this from the engine). -/
def c10_members : List BackupMember :=
  [{ user_id := 9, nickname := "f", card := some "C", role := "member", title := none }]

/-- C10 counterexample run environment: the roster fetch raises, the friend
list contains id 9. -/
def c10_env : RunEnv :=
  { roster := Except.error "boom", login := none,
    iters := [{ defaultIterEnv with friend_fetch := Except.ok [9] }] }

/-! ## Helper lemmas -/

lemma mem_memberIds {ms : List SnapMember} {u : Int} :
    u ∈ memberIds ms ↔ ∃ m ∈ ms, m.user_id = u := by
  simp [memberIds]

lemma lookupLast_eq_some {ms : List SnapMember} {u : Int} {m : SnapMember}
    (h : lookupLast ms u = some m) : m ∈ ms ∧ m.user_id = u := by
  have hmem := List.mem_of_find?_eq_some h
  have hpred := List.find?_some h
  exact ⟨List.mem_reverse.mp hmem, by simpa using hpred⟩

lemma lookupLast_isSome {ms : List SnapMember} {u : Int} :
    (lookupLast ms u).isSome ↔ u ∈ memberIds ms := by
  rw [mem_memberIds]
  simp only [lookupLast, List.find?_isSome, List.mem_reverse]
  constructor
  · rintro ⟨m, hm, hb⟩
    exact ⟨m, hm, by simpa using hb⟩
  · rintro ⟨m, hm, hb⟩
    exact ⟨m, hm, by simpa using hb⟩

lemma addOutcome_total (p : RebuildProgress) (r : InviteResult) :
    (addOutcome p r).total = p.total := rfl

lemma addOutcome_processed (p : RebuildProgress) (r : InviteResult) :
    (addOutcome p r).processed = p.processed + 1 := rfl

lemma addOutcome_status (p : RebuildProgress) (r : InviteResult) :
    (addOutcome p r).status = p.status := rfl

lemma addOutcome_results_length (p : RebuildProgress) (r : InviteResult) :
    (addOutcome p r).results.length = p.results.length + 1 := by
  simp [addOutcome]

lemma addOutcome_sum (p : RebuildProgress) (r : InviteResult) :
    (addOutcome p r).success + (addOutcome p r).failed + (addOutcome p r).skipped
      = p.success + p.failed + p.skipped + 1 := by
  cases hr : r.status <;> simp [addOutcome, hr] <;> omega

lemma process_member_total (cfg : RebuildConfig) (group_id : Int)
    (bot : Option Int) (e : IterEnv) (s : LoopState) (m : BackupMember) :
    (process_member cfg group_id bot e s m).1.prog.total = s.prog.total := by
  unfold process_member
  dsimp only
  repeat' split
  all_goals rfl

lemma process_member_processed (cfg : RebuildConfig) (group_id : Int)
    (bot : Option Int) (e : IterEnv) (s : LoopState) (m : BackupMember) :
    (process_member cfg group_id bot e s m).1.prog.processed
      = s.prog.processed + 1 := by
  unfold process_member
  dsimp only
  repeat' split
  all_goals rfl

lemma process_member_results_length (cfg : RebuildConfig) (group_id : Int)
    (bot : Option Int) (e : IterEnv) (s : LoopState) (m : BackupMember) :
    (process_member cfg group_id bot e s m).1.prog.results.length
      = s.prog.results.length + 1 := by
  unfold process_member
  dsimp only
  repeat' split
  all_goals simp [addOutcome_results_length]

lemma process_member_sum (cfg : RebuildConfig) (group_id : Int)
    (bot : Option Int) (e : IterEnv) (s : LoopState) (m : BackupMember) :
    (process_member cfg group_id bot e s m).1.prog.success +
      (process_member cfg group_id bot e s m).1.prog.failed +
      (process_member cfg group_id bot e s m).1.prog.skipped
      = s.prog.success + s.prog.failed + s.prog.skipped + 1 := by
  unfold process_member
  dsimp only
  repeat' split
  all_goals simp [addOutcome_sum]

lemma process_member_status (cfg : RebuildConfig) (group_id : Int)
    (bot : Option Int) (e : IterEnv) (s : LoopState) (m : BackupMember) :
    (process_member cfg group_id bot e s m).1.prog.status = s.prog.status ∨
      (process_member cfg group_id bot e s m).1.prog.status
        = RebuildStatus.failed := by
  unfold process_member
  dsimp only
  repeat' split
  all_goals (first | exact Or.inl rfl | exact Or.inr rfl)

lemma process_member_cancelled (cfg : RebuildConfig) (group_id : Int)
    (bot : Option Int) (e : IterEnv) (s : LoopState) (m : BackupMember) :
    (process_member cfg group_id bot e s m).1.cancelled = s.cancelled := by
  unfold process_member
  dsimp only
  repeat' split
  all_goals rfl

lemma run_loop_nil (cfg : RebuildConfig) (group_id : Int) (bot : Option Int)
    (es : List IterEnv) (s : LoopState) :
    run_loop cfg group_id bot [] es s = (s, Trace.empty, []) := by
  simp [run_loop]

lemma run_loop_cons_break (cfg : RebuildConfig) (group_id : Int)
    (bot : Option Int) (m : BackupMember) (rest : List BackupMember)
    (es : List IterEnv) (s : LoopState)
    (h : (s.cancelled : Prop) ∨ ((es.headD defaultIterEnv).cancel_before : Prop)) :
    run_loop cfg group_id bot (m :: rest) es s =
      ({ s with prog := { s.prog with status := RebuildStatus.cancelled } },
       Trace.empty, []) := by
  unfold run_loop
  dsimp only
  rw [if_pos h]

lemma run_loop_cons_cont (cfg : RebuildConfig) (group_id : Int)
    (bot : Option Int) (m : BackupMember) (rest : List BackupMember)
    (es : List IterEnv) (s : LoopState)
    (h : ¬ ((s.cancelled : Prop) ∨ ((es.headD defaultIterEnv).cancel_before : Prop)))
    (hcont : (process_member cfg group_id bot (es.headD defaultIterEnv)
      (pauseMark (es.headD defaultIterEnv) s) m).2.2 = true) :
    run_loop cfg group_id bot (m :: rest) es s =
      ((run_loop cfg group_id bot rest es.tail
          (process_member cfg group_id bot (es.headD defaultIterEnv)
            (pauseMark (es.headD defaultIterEnv) s) m).1).1,
       ((process_member cfg group_id bot (es.headD defaultIterEnv)
            (pauseMark (es.headD defaultIterEnv) s) m).2.1).append
         (run_loop cfg group_id bot rest es.tail
            (process_member cfg group_id bot (es.headD defaultIterEnv)
              (pauseMark (es.headD defaultIterEnv) s) m).1).2.1,
       (process_member cfg group_id bot (es.headD defaultIterEnv)
          (pauseMark (es.headD defaultIterEnv) s) m).1.prog ::
         (run_loop cfg group_id bot rest es.tail
            (process_member cfg group_id bot (es.headD defaultIterEnv)
              (pauseMark (es.headD defaultIterEnv) s) m).1).2.2) := by
  conv_lhs => rw [run_loop]
  dsimp only
  rw [if_neg h, if_pos hcont]

lemma run_loop_cons_stop (cfg : RebuildConfig) (group_id : Int)
    (bot : Option Int) (m : BackupMember) (rest : List BackupMember)
    (es : List IterEnv) (s : LoopState)
    (h : ¬ ((s.cancelled : Prop) ∨ ((es.headD defaultIterEnv).cancel_before : Prop)))
    (hstop : ¬ (process_member cfg group_id bot (es.headD defaultIterEnv)
      (pauseMark (es.headD defaultIterEnv) s) m).2.2 = true) :
    run_loop cfg group_id bot (m :: rest) es s =
      ((process_member cfg group_id bot (es.headD defaultIterEnv)
          (pauseMark (es.headD defaultIterEnv) s) m).1,
       (process_member cfg group_id bot (es.headD defaultIterEnv)
          (pauseMark (es.headD defaultIterEnv) s) m).2.1,
       [(process_member cfg group_id bot (es.headD defaultIterEnv)
           (pauseMark (es.headD defaultIterEnv) s) m).1.prog]) := by
  conv_lhs => rw [run_loop]
  dsimp only
  rw [if_neg h, if_neg hstop]

lemma pauseMark_counts (e : IterEnv) (s : LoopState) :
    (pauseMark e s).prog.total = s.prog.total ∧
    (pauseMark e s).prog.processed = s.prog.processed ∧
    (pauseMark e s).prog.success = s.prog.success ∧
    (pauseMark e s).prog.failed = s.prog.failed ∧
    (pauseMark e s).prog.skipped = s.prog.skipped ∧
    (pauseMark e s).prog.results = s.prog.results := by
  unfold pauseMark
  split <;> exact ⟨rfl, rfl, rfl, rfl, rfl, rfl⟩

lemma run_loop_inv (cfg : RebuildConfig) (group_id : Int) (bot : Option Int)
    (ms : List BackupMember) :
    ∀ (es : List IterEnv) (s : LoopState),
      s.prog.processed = s.prog.success + s.prog.failed + s.prog.skipped →
      s.prog.results.length = s.prog.processed →
      s.prog.processed + ms.length ≤ s.prog.total →
      (((run_loop cfg group_id bot ms es s).1.prog.total = s.prog.total) ∧
       ((run_loop cfg group_id bot ms es s).1.prog.processed =
         (run_loop cfg group_id bot ms es s).1.prog.success +
         (run_loop cfg group_id bot ms es s).1.prog.failed +
         (run_loop cfg group_id bot ms es s).1.prog.skipped) ∧
       ((run_loop cfg group_id bot ms es s).1.prog.results.length =
         (run_loop cfg group_id bot ms es s).1.prog.processed) ∧
       ((run_loop cfg group_id bot ms es s).1.prog.processed ≤ s.prog.total)) ∧
      (∀ p ∈ (run_loop cfg group_id bot ms es s).2.2,
        p.total = s.prog.total ∧
        p.processed = p.success + p.failed + p.skipped ∧
        p.results.length = p.processed ∧
        p.processed ≤ s.prog.total) := by
  induction ms with
  | nil =>
      intro es s h1 h2 h3
      rw [run_loop_nil]
      exact ⟨⟨rfl, h1, h2, by simpa using h3⟩, by intro p hp; simp at hp⟩
  | cons m rest ih =>
      intro es s h1 h2 h3
      by_cases hc : (s.cancelled : Prop) ∨
          ((es.headD defaultIterEnv).cancel_before : Prop)
      · rw [run_loop_cons_break cfg group_id bot m rest es s hc]
        refine ⟨⟨rfl, h1, h2, ?_⟩, ?_⟩
        · show s.prog.processed ≤ s.prog.total
          simp only [List.length_cons] at h3
          omega
        · intro p hp
          simp at hp
      · obtain ⟨hq1, hq2, hq3, hq4, hq5, hq6⟩ :=
          pauseMark_counts (es.headD defaultIterEnv) s
        have hpt := process_member_total cfg group_id bot
          (es.headD defaultIterEnv) (pauseMark (es.headD defaultIterEnv) s) m
        have hpp := process_member_processed cfg group_id bot
          (es.headD defaultIterEnv) (pauseMark (es.headD defaultIterEnv) s) m
        have hpr := process_member_results_length cfg group_id bot
          (es.headD defaultIterEnv) (pauseMark (es.headD defaultIterEnv) s) m
        have hps := process_member_sum cfg group_id bot
          (es.headD defaultIterEnv) (pauseMark (es.headD defaultIterEnv) s) m
        rw [hq1] at hpt
        rw [hq2] at hpp
        rw [hq6] at hpr
        rw [hq3, hq4, hq5] at hps
        simp only [List.length_cons] at h3
        have hinv1 : (process_member cfg group_id bot (es.headD defaultIterEnv)
            (pauseMark (es.headD defaultIterEnv) s) m).1.prog.processed =
            (process_member cfg group_id bot (es.headD defaultIterEnv)
              (pauseMark (es.headD defaultIterEnv) s) m).1.prog.success +
            (process_member cfg group_id bot (es.headD defaultIterEnv)
              (pauseMark (es.headD defaultIterEnv) s) m).1.prog.failed +
            (process_member cfg group_id bot (es.headD defaultIterEnv)
              (pauseMark (es.headD defaultIterEnv) s) m).1.prog.skipped := by
          omega
        have hinv2 : (process_member cfg group_id bot (es.headD defaultIterEnv)
            (pauseMark (es.headD defaultIterEnv) s) m).1.prog.results.length =
            (process_member cfg group_id bot (es.headD defaultIterEnv)
              (pauseMark (es.headD defaultIterEnv) s) m).1.prog.processed := by
          omega
        have hinv3 : (process_member cfg group_id bot (es.headD defaultIterEnv)
            (pauseMark (es.headD defaultIterEnv) s) m).1.prog.processed +
            rest.length ≤ (process_member cfg group_id bot (es.headD defaultIterEnv)
              (pauseMark (es.headD defaultIterEnv) s) m).1.prog.total := by
          omega
        by_cases hcont : (process_member cfg group_id bot (es.headD defaultIterEnv)
            (pauseMark (es.headD defaultIterEnv) s) m).2.2 = true
        · rw [run_loop_cons_cont cfg group_id bot m rest es s hc hcont]
          dsimp only
          obtain ⟨⟨ht, hsum, hlen, hle⟩, hobs⟩ := ih es.tail
            (process_member cfg group_id bot (es.headD defaultIterEnv)
              (pauseMark (es.headD defaultIterEnv) s) m).1 hinv1 hinv2 hinv3
          refine ⟨⟨by omega, hsum, hlen, by omega⟩, ?_⟩
          intro p hp
          simp only [List.mem_cons] at hp
          rcases hp with hp | hp
          · subst hp
            exact ⟨by omega, hinv1, hinv2, by omega⟩
          · obtain ⟨hr1, hr2, hr3, hr4⟩ := hobs p hp
            exact ⟨by omega, hr2, hr3, by omega⟩
        · rw [run_loop_cons_stop cfg group_id bot m rest es s hc hcont]
          dsimp only
          refine ⟨⟨by omega, hinv1, hinv2, by omega⟩, ?_⟩
          intro p hp
          simp only [List.mem_singleton] at hp
          subst hp
          exact ⟨by omega, hinv1, hinv2, by omega⟩

lemma finalizeProgress_counts (p : RebuildProgress) :
    (finalizeProgress p).total = p.total ∧
    (finalizeProgress p).processed = p.processed ∧
    (finalizeProgress p).success = p.success ∧
    (finalizeProgress p).failed = p.failed ∧
    (finalizeProgress p).skipped = p.skipped ∧
    (finalizeProgress p).results = p.results := by
  unfold finalizeProgress
  split <;> simp

lemma filter_roles_length_le (l : List BackupMember) :
    (l.filter (fun m => m.role = "member")).length +
      (l.filter (fun m => m.role = "admin")).length ≤ l.length := by
  induction l with
  | nil => simp
  | cons a t ih =>
      by_cases h1 : a.role = "member"
      · have h2 : ¬ a.role = "admin" := by rw [h1]; decide
        simp only [List.filter_cons, h1, h2]
        simp only [decide_eq_true_eq] at *
        simp [h1, h2]
        omega
      · by_cases h2 : a.role = "admin"
        · simp [List.filter_cons, h1, h2]
          omega
        · simp [List.filter_cons, h1, h2]
          omega

/-! ## Claims -/

/-- C2: for every two member collections, the diff computation returns
`joined = newKeys − oldKeys`, `left = oldKeys − newKeys`,
`remained = oldKeys ∩ newKeys`, and `joined ∩ left = ∅`; the first part
covers `compare_backups` on two stored snapshots, the second the delta
computed inside `backup_group` (`createSnapshot`), which produces the
`joined`/`left` parts. -/
theorem diff_correctness :
    (∀ (ms1 ms2 : List SnapMember) (u : Int),
      (u ∈ (compare_backups ms1 ms2).joined ↔
        u ∈ memberIds ms2 ∧ u ∉ memberIds ms1) ∧
      (u ∈ (compare_backups ms1 ms2).left ↔
        u ∈ memberIds ms1 ∧ u ∉ memberIds ms2) ∧
      (u ∈ (compare_backups ms1 ms2).remained ↔
        u ∈ memberIds ms1 ∧ u ∈ memberIds ms2) ∧
      (compare_backups ms1 ms2).joined ∩ (compare_backups ms1 ms2).left = ∅) ∧
    (∀ (old_user_ids new_user_ids : Finset Int) (u : Int),
      (u ∈ (backup_group_delta old_user_ids new_user_ids).1 ↔
        u ∈ new_user_ids ∧ u ∉ old_user_ids) ∧
      (u ∈ (backup_group_delta old_user_ids new_user_ids).2 ↔
        u ∈ old_user_ids ∧ u ∉ new_user_ids) ∧
      (backup_group_delta old_user_ids new_user_ids).1 ∩
        (backup_group_delta old_user_ids new_user_ids).2 = ∅) := by
  constructor
  · intro ms1 ms2 u
    refine ⟨?_, ?_, ?_, ?_⟩
    · simp [compare_backups]
    · simp [compare_backups]
    · simp [compare_backups]
    · ext x
      simp only [compare_backups, Finset.mem_inter, Finset.mem_sdiff,
        Finset.not_mem_empty, iff_false]
      tauto
  · intro old_user_ids new_user_ids u
    refine ⟨?_, ?_, ?_⟩
    · simp [backup_group_delta]
    · simp [backup_group_delta]
    · ext x
      simp only [backup_group_delta, Finset.mem_inter, Finset.mem_sdiff,
        Finset.not_mem_empty, iff_false]
      tauto

/-- C1: in every run of the reconciliation loop, at every observation point
once a member has been dequeued (after each processed member, and in the
final state), the counters satisfy `processed = success + failed + skipped`
and `processed ≤ total`, `total` stays fixed at `len(members)`, and exactly
one outcome record exists per processed member
(`results.length = processed`). -/
theorem counter_invariant (cfg : RebuildConfig) (target_group_id : Int)
    (members : List BackupMember) (env : RunEnv) :
    (((rebuild_group cfg target_group_id members env).2.2 ++
        [(rebuild_group cfg target_group_id members env).1]).all
      (fun p => (p.total == members.length) &&
        (p.processed == p.success + p.failed + p.skipped) &&
        (p.results.length == p.processed) &&
        decide (p.processed ≤ p.total))) = true := by
  have hb : ((0 : Nat)) + ((members.filter (fun m => m.role = "member")) ++
      (members.filter (fun m => m.role = "admin"))).length ≤ members.length := by
    have := filter_roles_length_le members
    simp only [List.length_append]
    omega
  obtain ⟨⟨ht, hsum, hlen, hle⟩, hobs⟩ :=
    run_loop_inv cfg target_group_id env.login
      ((members.filter (fun m => m.role = "member")) ++
        (members.filter (fun m => m.role = "admin")))
      env.iters
      { prog := { total := members.length, status := RebuildStatus.running }
        current_ids := (env.roster.toOption.getD []).toFinset
        cancelled := false }
      rfl rfl hb
  dsimp only at ht hle hobs
  simp only [rebuild_group]
  rw [List.all_eq_true]
  intro p hp
  simp only [List.mem_append, List.mem_singleton] at hp
  simp only [Bool.and_eq_true, beq_iff_eq, decide_eq_true_eq]
  rcases hp with hp | hp
  · obtain ⟨e1, e2, e3, e4⟩ := hobs p hp
    exact ⟨⟨⟨e1, e2⟩, e3⟩, by omega⟩
  · obtain ⟨f1, f2, f3, f4, f5, f6⟩ :=
      finalizeProgress_counts
        (run_loop cfg target_group_id env.login
          ((members.filter (fun m => m.role = "member")) ++
            (members.filter (fun m => m.role = "admin")))
          env.iters
          { prog := { total := members.length, status := RebuildStatus.running }
            current_ids := (env.roster.toOption.getD []).toFinset
            cancelled := false }).1.prog
    subst hp
    refine ⟨⟨⟨by omega, by omega⟩, ?_⟩, by omega⟩
    rw [f6, f2, hlen]

/-- C8 counterexample: a member whose card is null in the old snapshot and
the empty string in the new one IS reported by `compare_backups` in the
card-changed list (the claim states it is not). -/
theorem compare_reports_null_vs_empty_card :
    (1 : Int) ∈ (compare_backups c8_old c8_new).card_changed := by
  decide

/-- C8 amended: `compare_backups` compares the nullable card values of both
snapshots with plain equality — a member present in both snapshots is in
the card-changed list exactly when the raw values differ, so null versus
empty string IS reported (the null↔empty normalisation exists only in the
dry-run classification, not here). -/
theorem card_changed_iff_raw_card_diff (ms1 ms2 : List SnapMember) (u : Int) :
    u ∈ (compare_backups ms1 ms2).card_changed ↔
      ∃ m1 m2, lookupLast ms1 u = some m1 ∧ lookupLast ms2 u = some m2 ∧
        m1.card ≠ m2.card := by
  simp only [compare_backups, Finset.mem_filter, Finset.mem_inter]
  constructor
  · rintro ⟨⟨h1, h2⟩, hne⟩
    obtain ⟨m1, hm1⟩ := Option.isSome_iff_exists.mp (lookupLast_isSome.mpr h1)
    obtain ⟨m2, hm2⟩ := Option.isSome_iff_exists.mp (lookupLast_isSome.mpr h2)
    refine ⟨m1, m2, hm1, hm2, ?_⟩
    intro hcard
    exact hne (by rw [hm1, hm2, Option.map_some', Option.map_some', hcard])
  · rintro ⟨m1, m2, hm1, hm2, hne⟩
    have h1 : u ∈ memberIds ms1 :=
      lookupLast_isSome.mp (by rw [hm1]; rfl)
    have h2 : u ∈ memberIds ms2 :=
      lookupLast_isSome.mp (by rw [hm2]; rfl)
    refine ⟨⟨h1, h2⟩, ?_⟩
    rw [hm1, hm2, Option.map_some', Option.map_some']
    intro hcontr
    exact hne (by simpa using hcontr)

/-- C4: the dry-run path performs only read calls — for every configuration,
group, member list and oracle, no call in the emitted trace is a remote
mutation (`set_group_card`, `set_group_special_title`, `set_group_admin`,
`send_group_msg`). -/
theorem dry_run_no_mutation (cfg : RebuildConfig) (group_id : Int)
    (backup_members : List BackupMember) (env : DryRunEnv) :
    ((dry_run_rebuild cfg group_id backup_members env).2.all
      (fun c => !c.isMutation)) = true := by
  rcases env with ⟨roster, login, friends⟩
  cases roster <;> simp [dry_run_rebuild, ApiCall.isMutation]

lemma dryClassify_user_id (cfg : RebuildConfig) (bot : Option Int)
    (roster : List LiveMember) (friend_ids : List Int) (m : BackupMember) :
    (dryClassify cfg bot roster friend_ids m).user_id = m.user_id := by
  unfold dryClassify
  repeat' split
  any_goals rfl
  all_goals simp only []
  all_goals (repeat' split)
  all_goals rfl

/-- C3: in dry-run mode every snapshotted member is classified into exactly
one bucket (the decision list has exactly one entry per member, in order),
and on the concrete scenario — snapshot members 1:A, 2:B, 3:C, live group
1:A', 2:B, friend list 3, restoreCards=true — the preview classifies id 1
as restore, id 2 as skip (no change needed) and id 3 as needs-manual-invite. -/
theorem dry_run_classification :
    (∀ (cfg : RebuildConfig) (group_id : Int)
       (backup_members : List BackupMember) (env : DryRunEnv),
      match (dry_run_rebuild cfg group_id backup_members env).1 with
      | Except.ok r => r.changes.map (fun c => c.user_id) =
          backup_members.map (fun m => m.user_id)
      | Except.error _ => True) ∧
    ((dry_run_rebuild c3_cfg 100 c3_members c3_env).1.toOption.map
      (fun r => r.changes.map (fun c => (c.user_id, c.action, c.reason)))) =
      some [((1 : Int), "restore", "已在群内，将恢复信息"),
            (2, "skip", "已在群内，无需更改"),
            (3, "need_invite", "是好友，但OneBot标准不支持直接邀请入群")] := by
  constructor
  · intro cfg group_id backup_members env
    rcases env with ⟨roster, login, friends⟩
    cases roster with
    | error e => simp [dry_run_rebuild]
    | ok r =>
        simp only [dry_run_rebuild, List.map_map]
        congr 1
        funext m
        exact dryClassify_user_id _ _ _ _ _
  · decide

/-- C5 counterexample: a run over a single member who is already in the
target group processes the member (`processed = 1`) but reaches no progress
callback invocation point and performs no rate-limit sleep — the
already-present branch `continue`s past both, contradicting the claim that
every processed member triggers a callback event and a sleep. -/
theorem already_present_member_skips_callback_and_sleep :
    (rebuild_group c5_cfg 100 c5_members c5_env).1.processed = 1 ∧
    (rebuild_group c5_cfg 100 c5_members c5_env).2.1.callbacks = 0 ∧
    (rebuild_group c5_cfg 100 c5_members c5_env).2.1.sleeps = [] := by
  decide

/-- C5 corrected: after each processed member the engine increments
`processed`, bumps exactly one matching counter and appends exactly one
outcome; the progress-callback invocation point and the
`60 / invites_per_minute` sleep, however, are reached exactly by the members
on the invite path — not bot-self, not already present in the target group,
and not aborting the job via a failure with `continue_on_error=False`; the
bot-self and already-present branches `continue` past both. -/
theorem per_member_accounting (cfg : RebuildConfig) (group_id : Int)
    (bot : Option Int) (e : IterEnv) (s : LoopState) (m : BackupMember) :
    (process_member cfg group_id bot e s m).1.prog.processed
        = s.prog.processed + 1 ∧
    (process_member cfg group_id bot e s m).1.prog.success +
        (process_member cfg group_id bot e s m).1.prog.failed +
        (process_member cfg group_id bot e s m).1.prog.skipped
        = s.prog.success + s.prog.failed + s.prog.skipped + 1 ∧
    (process_member cfg group_id bot e s m).1.prog.results.length
        = s.prog.results.length + 1 ∧
    (process_member cfg group_id bot e s m).2.1.sleeps.length
        = (process_member cfg group_id bot e s m).2.1.callbacks ∧
    (process_member cfg group_id bot e s m).2.1.callbacks ≤ 1 ∧
    ((process_member cfg group_id bot e s m).2.1.callbacks = 1 ∧
     (process_member cfg group_id bot e s m).2.1.sleeps = [cfg.invite_interval]
      ↔ ¬ some m.user_id = bot ∧ m.user_id ∉ s.current_ids ∧
        (process_member cfg group_id bot e s m).2.2 = true) := by
  refine ⟨process_member_processed cfg group_id bot e s m,
    process_member_sum cfg group_id bot e s m,
    process_member_results_length cfg group_id bot e s m, ?_, ?_, ?_⟩
  · unfold process_member
    dsimp only
    repeat' split
    all_goals rfl
  · unfold process_member
    dsimp only
    repeat' split
    all_goals simp [Trace.empty]
  · unfold process_member
    dsimp only
    repeat' split
    all_goals simp_all [Trace.empty]

lemma pauseMark_cancel (e : IterEnv) (s : LoopState)
    (h : e.cancel_during_pause = true) :
    (pauseMark e s).cancelled = true ∧
    (pauseMark e s).prog.status = RebuildStatus.cancelled := by
  unfold pauseMark
  rw [if_pos h]
  exact ⟨rfl, rfl⟩

/-- C6 counterexample: when `cancel()` arrives while the job is paused at
the boundary before the only member, that member is still processed — the
job ends `cancelled` with `processed = total` and one outcome appended,
contradicting the claim that after a cancellation request the loop stops
before processing any further member with `processed < total`. -/
theorem cancel_during_pause_still_processes :
    (rebuild_group c6_cfg 100 c6_members c6_env).1.status
        = RebuildStatus.cancelled ∧
    (rebuild_group c6_cfg 100 c6_members c6_env).1.processed
        = (rebuild_group c6_cfg 100 c6_members c6_env).1.total ∧
    (rebuild_group c6_cfg 100 c6_members c6_env).1.results.length = 1 := by
  decide

/-- C6 corrected: cancellation observed at the loop-iteration boundary
(outside a pause) stops the run before the member is touched, leaving the
state unchanged except for the `cancelled` status and appending no outcome;
but a cancellation arriving during the pause-wait only breaks the inner
pause loop — the current member is still fully processed (its outcome is
appended and `processed` is incremented, so `processed` can reach `total`)
and the run stops at the next boundary, ending `cancelled` (or `failed` if
that very member aborted the job with `continue_on_error=False`). -/
theorem cancellation_boundary_behaviour (cfg : RebuildConfig)
    (group_id : Int) (bot : Option Int) (m : BackupMember)
    (rest : List BackupMember) (es : List IterEnv) (s : LoopState) :
    ((s.cancelled : Prop) ∨ ((es.headD defaultIterEnv).cancel_before : Prop) →
      run_loop cfg group_id bot (m :: rest) es s =
        ({ s with prog := { s.prog with status := RebuildStatus.cancelled } },
         Trace.empty, [])) ∧
    (s.cancelled = false →
     (es.headD defaultIterEnv).cancel_before = false →
     (es.headD defaultIterEnv).cancel_during_pause = true →
      (run_loop cfg group_id bot (m :: rest) es s).1.prog.processed
          = s.prog.processed + 1 ∧
      (run_loop cfg group_id bot (m :: rest) es s).1.prog.results.length
          = s.prog.results.length + 1 ∧
      ((run_loop cfg group_id bot (m :: rest) es s).1.prog.status
          = RebuildStatus.cancelled ∨
       (run_loop cfg group_id bot (m :: rest) es s).1.prog.status
          = RebuildStatus.failed) ∧
      (run_loop cfg group_id bot (m :: rest) es s).2.2.length = 1) := by
  constructor
  · intro h
    exact run_loop_cons_break cfg group_id bot m rest es s h
  · intro h1 h2 h3
    have hc : ¬ ((s.cancelled : Prop) ∨
        ((es.headD defaultIterEnv).cancel_before : Prop)) := by
      rw [h1, h2]
      simp
    obtain ⟨hq1, hq2, hq3, hq4, hq5, hq6⟩ :=
      pauseMark_counts (es.headD defaultIterEnv) s
    obtain ⟨hcanc, hcstat⟩ := pauseMark_cancel (es.headD defaultIterEnv) s h3
    have hpp := process_member_processed cfg group_id bot
      (es.headD defaultIterEnv) (pauseMark (es.headD defaultIterEnv) s) m
    have hpr := process_member_results_length cfg group_id bot
      (es.headD defaultIterEnv) (pauseMark (es.headD defaultIterEnv) s) m
    have hpc := process_member_cancelled cfg group_id bot
      (es.headD defaultIterEnv) (pauseMark (es.headD defaultIterEnv) s) m
    have hpst := process_member_status cfg group_id bot
      (es.headD defaultIterEnv) (pauseMark (es.headD defaultIterEnv) s) m
    rw [hq2] at hpp
    rw [hq6] at hpr
    rw [hcanc] at hpc
    rw [hcstat] at hpst
    by_cases hcont : (process_member cfg group_id bot (es.headD defaultIterEnv)
        (pauseMark (es.headD defaultIterEnv) s) m).2.2 = true
    · rw [run_loop_cons_cont cfg group_id bot m rest es s hc hcont]
      dsimp only
      cases rest with
      | nil =>
          rw [run_loop_nil]
          exact ⟨hpp, hpr, hpst, rfl⟩
      | cons r rs =>
          rw [run_loop_cons_break cfg group_id bot r rs es.tail _ (Or.inl hpc)]
          exact ⟨hpp, hpr, Or.inl rfl, rfl⟩
    · rw [run_loop_cons_stop cfg group_id bot m rest es s hc hcont]
      dsimp only
      exact ⟨hpp, hpr, hpst, rfl⟩

/-- Witness for the C6 amended theorem: the concrete one-member run of the
counterexample discharges its hypotheses (not cancelled at the boundary,
cancellation during the pause). -/
theorem cancellation_boundary_behaviour_witness :
    c6_state.cancelled = false ∧
    ([c6_iter].headD defaultIterEnv).cancel_before = false ∧
    ([c6_iter].headD defaultIterEnv).cancel_during_pause = true ∧
    ((run_loop c6_cfg 100 none (c6_member0 :: []) [c6_iter]
        c6_state).1.prog.processed = c6_state.prog.processed + 1 ∧
     (run_loop c6_cfg 100 none (c6_member0 :: []) [c6_iter]
        c6_state).1.prog.results.length
          = c6_state.prog.results.length + 1 ∧
     ((run_loop c6_cfg 100 none (c6_member0 :: []) [c6_iter]
          c6_state).1.prog.status = RebuildStatus.cancelled ∨
      (run_loop c6_cfg 100 none (c6_member0 :: []) [c6_iter]
          c6_state).1.prog.status = RebuildStatus.failed) ∧
     (run_loop c6_cfg 100 none (c6_member0 :: []) [c6_iter]
        c6_state).2.2.length = 1) :=
  ⟨rfl, rfl, rfl,
    (cancellation_boundary_behaviour c6_cfg 100 none c6_member0 [] [c6_iter]
      c6_state).2 rfl rfl rfl⟩

/-- C7 counterexample: calling `cancel()` on an engine whose job has already
reached the terminal status `completed` overwrites that status with
`cancelled` — contradicting the claim that no operation changes the status
of a job in a terminal state. -/
theorem cancel_overwrites_completed :
    c7_prog.status = RebuildStatus.completed ∧
    (RebuildManager.cancel
      { progress := some c7_prog, cancelled := false,
        paused := false }).progress
      = some { c7_prog with status := RebuildStatus.cancelled } :=
  ⟨rfl, rfl⟩

/-- C7 corrected: `cancel`/`pause`/`resume` unconditionally overwrite the
current progress record's status (with `cancelled`/`paused`/`running`
respectively) whenever a record exists, terminal or not; the state-machine
edge into `completed` is enforced only by the loop's finalisation, which
promotes the status to `completed` exactly when it is still `running`. -/
theorem controls_overwrite_status (e : EngineState) (p : RebuildProgress)
    (h : e.progress = some p) :
    (RebuildManager.cancel e).progress
        = some { p with status := RebuildStatus.cancelled } ∧
    (RebuildManager.pause e).progress
        = some { p with status := RebuildStatus.paused } ∧
    (RebuildManager.resume e).progress
        = some { p with status := RebuildStatus.running } ∧
    (finalizeProgress p).status =
      (if p.status = RebuildStatus.running then RebuildStatus.completed
       else p.status) := by
  refine ⟨?_, ?_, ?_, ?_⟩
  · simp [RebuildManager.cancel, h]
  · simp [RebuildManager.pause, h]
  · simp [RebuildManager.resume, h]
  · unfold finalizeProgress
    dsimp only
    split <;> simp_all

/-- Witness for the C7 amended theorem at the completed-job engine state of
the counterexample. -/
theorem controls_overwrite_status_witness :
    ({ progress := some c7_prog, cancelled := false,
       paused := false } : EngineState).progress = some c7_prog ∧
    ((RebuildManager.cancel
        { progress := some c7_prog, cancelled := false,
          paused := false }).progress
        = some { c7_prog with status := RebuildStatus.cancelled } ∧
     (RebuildManager.pause
        { progress := some c7_prog, cancelled := false,
          paused := false }).progress
        = some { c7_prog with status := RebuildStatus.paused } ∧
     (RebuildManager.resume
        { progress := some c7_prog, cancelled := false,
          paused := false }).progress
        = some { c7_prog with status := RebuildStatus.running } ∧
     (finalizeProgress c7_prog).status =
       (if c7_prog.status = RebuildStatus.running then RebuildStatus.completed
        else c7_prog.status)) :=
  ⟨rfl, controls_overwrite_status
    { progress := some c7_prog, cancelled := false, paused := false }
    c7_prog rfl⟩

/-- C9 counterexample: executing a restore for a member whose live card
already equals the snapshot card (both are X) still emits the
`set_group_card` remote call, and the member's outcome is `success`, not
`skipped` — contradicting the claim that such a restore performs no remote
mutating call. -/
theorem equal_card_restore_still_calls_remote :
    ApiCall.set_group_card 100 7 "X"
        ∈ (rebuild_group c9_cfg 100 c9_members c9_env).2.1.calls ∧
    (rebuild_group c9_cfg 100 c9_members c9_env).1.results.map
      (fun r => r.status) = [InviteStatus.success] := by
  decide

/-- C9 corrected: in dry-run a member already in the group whose normalised
card equals the live one (and with no other restore flag enabled) is
classified skip / no change needed; in execution mode, however,
`_restore_member_info` never consults the live value — whenever
`restore_cards` is enabled it issues the `set_group_card` call
unconditionally, so restoring an equal-card member still performs the
remote mutating call. -/
theorem restore_remote_call_unconditional (cfg : RebuildConfig)
    (group_id : Int) (m : BackupMember) (renv : RestoreEnv)
    (bot : Option Int) (roster : List LiveMember) (friend_ids : List Int)
    (lm : LiveMember)
    (hcards : cfg.restore_cards = true)
    (htitles : cfg.restore_titles = false)
    (hadmins : cfg.restore_admins = false)
    (hbot : ¬ some m.user_id = bot)
    (hin : m.user_id ∈ liveIds roster)
    (hlook : liveLookup roster m.user_id = some lm)
    (heq : lm.card.getD "" = m.card.getD "") :
    ApiCall.set_group_card group_id m.user_id (m.card.getD "")
        ∈ (restore_member_info cfg group_id m renv).2 ∧
    (dryClassify cfg bot roster friend_ids m).action = "skip" ∧
    (dryClassify cfg bot roster friend_ids m).reason = "已在群内，无需更改" := by
  refine ⟨?_, ?_, ?_⟩
  · unfold restore_member_info
    simp [hcards]
  · unfold dryClassify
    rw [if_neg hbot, if_pos hin]
    simp [hlook, hcards, htitles, hadmins, heq]
  · unfold dryClassify
    rw [if_neg hbot, if_pos hin]
    simp [hlook, hcards, htitles, hadmins, heq]

/-- Witness for the C9 amended theorem at the counterexample member: id 7
with snapshot card X, live card X, restore_cards enabled. -/
theorem restore_remote_call_unconditional_witness :
    c9_cfg.restore_cards = true ∧
    c9_cfg.restore_titles = false ∧
    c9_cfg.restore_admins = false ∧
    ¬ some (7 : Int) = (none : Option Int) ∧
    (7 : Int) ∈ liveIds
      [{ user_id := 7, card := some "X", title := none,
         role := some "member" }] ∧
    liveLookup
      [{ user_id := 7, card := some "X", title := none,
         role := some "member" }] 7
      = some { user_id := 7, card := some "X", title := none,
               role := some "member" } ∧
    ((some "X" : Option String).getD "" = (some "X" : Option String).getD "") ∧
    (ApiCall.set_group_card 100 7
        (({ user_id := 7, nickname := "x", card := some "X",
            role := "member", title := none } : BackupMember).card.getD "")
        ∈ (restore_member_info c9_cfg 100
            { user_id := 7, nickname := "x", card := some "X",
              role := "member", title := none }
            { card_ok := true, title_ok := true, admin_ok := true }).2 ∧
     (dryClassify c9_cfg none
        [{ user_id := 7, card := some "X", title := none,
           role := some "member" }] []
        { user_id := 7, nickname := "x", card := some "X",
          role := "member", title := none }).action = "skip" ∧
     (dryClassify c9_cfg none
        [{ user_id := 7, card := some "X", title := none,
           role := some "member" }] []
        { user_id := 7, nickname := "x", card := some "X",
          role := "member", title := none }).reason = "已在群内，无需更改") :=
  ⟨rfl, rfl, rfl, by decide, by decide, by decide, rfl,
    restore_remote_call_unconditional c9_cfg 100
      { user_id := 7, nickname := "x", card := some "X",
        role := "member", title := none }
      { card_ok := true, title_ok := true, admin_ok := true }
      none
      [{ user_id := 7, card := some "X", title := none,
         role := some "member" }]
      []
      { user_id := 7, card := some "X", title := none, role := some "member" }
      rfl rfl rfl (by decide) (by decide) (by decide) rfl⟩

/-- C10 counterexample: with the roster fetch raising, the run proceeds and
completes; the member (a friend who is actually present in the target
group) is recorded `success` as flagged-for-manual-invite AND a metadata
restore is still attempted for them — the `set_group_card` call appears in
the trace, contradicting the claim that no metadata restore is attempted
for actually-present members. -/
theorem roster_failure_member_still_restored :
    (rebuild_group c10_cfg 100 c10_members c10_env).1.status
        = RebuildStatus.completed ∧
    ApiCall.set_group_card 100 9 "C"
        ∈ (rebuild_group c10_cfg 100 c10_members c10_env).2.1.calls ∧
    (rebuild_group c10_cfg 100 c10_members c10_env).1.results.map
      (fun r => (r.status, r.message))
      = [(InviteStatus.success, "已标记待邀请")] := by
  decide

/-- C10 corrected: in execution mode a failed roster fetch is swallowed and
the run behaves exactly as if the roster were empty (so it does not abort),
whereas the same failure aborts the whole dry-run preview with an error;
with the empty roster every member takes the invite path, where a friend
member is recorded `success` as flagged-for-manual-invite and a metadata
restore is then still attempted for them (the `set_group_card` call is
emitted when `restore_cards` is enabled). -/
theorem roster_fetch_failure_handling (cfg : RebuildConfig) (gid : Int)
    (members : List BackupMember) (msg : String) (login : Option Int)
    (iters : List IterEnv) (dlogin : Option Int)
    (dfriends : Except String (List Int)) (bot : Option Int) (e : IterEnv)
    (s : LoopState) (m : BackupMember) (friends : List Int)
    (hnotin : m.user_id ∉ s.current_ids)
    (hbot : ¬ some m.user_id = bot)
    (hff : e.friend_fetch = Except.ok friends)
    (hmem : m.user_id ∈ friends)
    (hcards : cfg.restore_cards = true) :
    (rebuild_group cfg gid members
        { roster := Except.error msg, login := login, iters := iters }
      = rebuild_group cfg gid members
        { roster := Except.ok [], login := login, iters := iters }) ∧
    ((dry_run_rebuild cfg gid members
        { roster := Except.error msg, login := dlogin,
          friends := dfriends }).1
      = Except.error ("获取群成员失败: " ++ msg)) ∧
    ((process_member cfg gid bot e s m).1.prog.results
      = s.prog.results ++
        [{ user_id := m.user_id, nickname := m.nickname,
           status := InviteStatus.success, message := "已标记待邀请" }]) ∧
    (ApiCall.set_group_card gid m.user_id (m.card.getD "")
      ∈ (process_member cfg gid bot e s m).2.1.calls) := by
  refine ⟨rfl, rfl, ?_, ?_⟩
  · unfold process_member
    dsimp only
    rw [if_neg hbot, if_neg hnotin]
    simp [invite_member, hff, hmem, addOutcome]
  · unfold process_member
    dsimp only
    rw [if_neg hbot, if_neg hnotin]
    simp [invite_member, hff, hmem, restore_member_info, hcards]

/-- Witness for the C10 amended theorem at the counterexample inputs: a
friend member (id 9) not on the (empty) engine-side roster, with
`restore_cards` enabled. -/
theorem roster_fetch_failure_handling_witness :
    ((9 : Int) ∉ (∅ : Finset Int)) ∧
    (¬ some (9 : Int) = (none : Option Int)) ∧
    (({ defaultIterEnv with
        friend_fetch := Except.ok [9] } : IterEnv).friend_fetch
      = Except.ok [9]) ∧
    ((9 : Int) ∈ [(9 : Int)]) ∧
    (c10_cfg.restore_cards = true) ∧
    ((process_member c10_cfg 100 none
        { defaultIterEnv with friend_fetch := Except.ok [9] }
        { prog := { total := 1, status := RebuildStatus.running },
          current_ids := ∅, cancelled := false }
        { user_id := 9, nickname := "f", card := some "C",
          role := "member", title := none }).1.prog.results
      = ({ prog := { total := 1, status := RebuildStatus.running },
           current_ids := ∅, cancelled := false } : LoopState).prog.results ++
        [{ user_id := 9, nickname := "f",
           status := InviteStatus.success, message := "已标记待邀请" }] ∧
     ApiCall.set_group_card 100 9
        (({ user_id := 9, nickname := "f", card := some "C",
            role := "member", title := none } : BackupMember).card.getD "")
        ∈ (process_member c10_cfg 100 none
            { defaultIterEnv with friend_fetch := Except.ok [9] }
            { prog := { total := 1, status := RebuildStatus.running },
              current_ids := ∅, cancelled := false }
            { user_id := 9, nickname := "f", card := some "C",
              role := "member", title := none }).2.1.calls) :=
  ⟨by decide, by decide, rfl, by decide, rfl,
    ((roster_fetch_failure_handling c10_cfg 100 [] "boom" none [] none
        (Except.ok []) none
        { defaultIterEnv with friend_fetch := Except.ok [9] }
        { prog := { total := 1, status := RebuildStatus.running },
          current_ids := ∅, cancelled := false }
        { user_id := 9, nickname := "f", card := some "C",
          role := "member", title := none }
        [9]
        (by decide) (by decide) rfl (by decide) rfl).2.2 : _)⟩

end ValHalla
